import Mathlib

/-!
# websocket-server: change-distribution hub and reconciliation engine

A shallow embedding of `src/websocket-server/main.go`.

* The hub (`Hub.run`) is a step function over the membership map, one call per
  `select` iteration.  The map `h.clients` is the list of its keys; the effects
  of `client.WriteJSON` and `client.Close` are recorded in two logs.
* The table `tasks` of the SQLite database is a list of rows.  Every function
  that talks to a store takes an environment `Env` that supplies the clock and
  tells which store calls return an I/O error.
* The channel `hub.broadcast` is the list of the messages sent on it.
-/

namespace WebsocketServer

/-! ## Data model -/

/-- The dynamic type of `Task.ID` (an `interface{}`): `nil`, a string, or an
integer.  The number of a JSON body stands as `int`; the program formats and
compares no id that comes from a body. -/
inductive TaskID where
  | nil
  | str (s : String)
  | int (n : Int)
  deriving DecidableEq, Repr

/-- The struct `Task`. -/
structure Task where
  ID : TaskID
  UserID : String
  Title : String
  Description : String
  DueDate : String
  IsCompleted : Bool
  Category : String
  Priority : Int
  DeviceID : String
  RecordID : String
  CreatedAt : String
  UpdatedAt : String
  deriving DecidableEq, Repr

/-- The dynamic type of `WSMessage.Data`: a task, a task list, or a literal. -/
inductive Payload where
  | task (t : Task)
  | tasks (ts : List Task)
  | text (s : String)
  deriving DecidableEq, Repr

/-- The struct `WSMessage`; `MsgType` is its field `Type`. -/
structure WSMessage where
  MsgType : String
  Data : Payload
  deriving DecidableEq, Repr

/-- A `*websocket.Conn`, identified by a number. -/
abbrev Conn := Nat

/-! ## The hub -/

/-- The struct `Hub`: the keys of the map `clients`, with the log of the
`WriteJSON` calls and the log of the `Close` calls made by `run`, oldest first. -/
structure Hub where
  clients : List Conn
  written : List (Conn × WSMessage)
  closed : List Conn
  deriving DecidableEq, Repr

/-- A value received by the `select` of `Hub.run`. -/
inductive HubRequest where
  | register (client : Conn)
  | unregister (client : Conn)
  | broadcast (message : WSMessage)
  deriving DecidableEq, Repr

/-- The builtin `delete(h.clients, client)`. -/
def Hub.delete (h : Hub) (client : Conn) : Hub :=
  { h with clients := h.clients.filter (fun c => c ≠ client) }

/-- The call `client.Close()`. -/
def Hub.close (h : Hub) (client : Conn) : Hub :=
  { h with closed := h.closed ++ [client] }

/-- The loop `for client := range h.clients` of the broadcast case, over the keys
still to visit.  A key that was deleted before it is reached is not produced.
`writeOK client` tells whether `client.WriteJSON(message)` returns no error. -/
def Hub.broadcastLoop (message : WSMessage) (writeOK : Conn → Bool) : List Conn → Hub → Hub
  | [], h => h
  | client :: rest, h =>
    if client ∈ h.clients then
      let h1 := { h with written := h.written ++ [(client, message)] }
      if writeOK client then
        Hub.broadcastLoop message writeOK rest h1
      else
        Hub.broadcastLoop message writeOK rest ((h1.delete client).close client)
    else
      Hub.broadcastLoop message writeOK rest h

/-- One iteration of the loop of `func (h *Hub) run()`. -/
def Hub.run (h : Hub) (writeOK : Conn → Bool) : HubRequest → Hub
  | .register client =>
    if client ∈ h.clients then h else { h with clients := h.clients ++ [client] }
  | .unregister client =>
    if client ∈ h.clients then (h.delete client).close client else h
  | .broadcast message => Hub.broadcastLoop message writeOK h.clients h

/-! ## The record store and the broadcast channel -/

/-- The state outside the hub: the rows of the table `tasks`, in table order, and
the messages sent on the channel `hub.broadcast`, oldest first.  A row holds a
value in every column but `id`, as every `INSERT` of the program writes one;
the id is read through `scanRow`. -/
structure World where
  tasks : List Task
  broadcast : List WSMessage
  deriving DecidableEq, Repr

/-- What a request takes from its environment: `time.Now()` formatted with the
layout `2006-01-02 15:04:05`, `time.Now().UnixNano()`, the value of SQL
`CURRENT_TIMESTAMP`, the id the upstream service gives a task it creates, and
`storeErr n`, which tells whether the `n`-th store call of the request (counted
from 0, the database and the upstream service alike) returns an I/O error. -/
structure Env where
  now : String
  unixNano : Int
  currentTimestamp : String
  newID : String
  storeErr : Nat → Bool

/-- A Go `error`; `none` is `nil`. -/
abbrev Error := Option String

/-- The variable `sqliteAPIURL`. -/
def sqliteAPIURL : String := "http://localhost:8080"

/-- The function `broadcastTaskChange`: the send `hub.broadcast <- message`. -/
def broadcastTaskChange (changeType : String) (task : Task) (w : World) : World :=
  { w with broadcast := w.broadcast ++ [{ MsgType := changeType, Data := .task task }] }

/-- The function `getTaskIDString`. -/
def getTaskIDString (task : Task) : String :=
  match task.ID with
  | .str id => id
  | .int id => toString id
  | .nil => ""

/-- The verb `%d` of `fmt.Sprintf` applied to the dynamic value of `Task.ID`: an
integer is written in decimal, any other value as a bad-verb marker. -/
def fmtD : TaskID → String
  | .int n => toString n
  | .str s => "%!d(string=" ++ s ++ ")"
  | .nil => "%!d(<nil>)"

/-- The test `ishex` of Go's `net/url`. -/
def ishex (c : Char) : Bool :=
  ('0' ≤ c && c ≤ '9') || ('a' ≤ c && c ≤ 'f') || ('A' ≤ c && c ≤ 'F')

/-- The escape check of Go's `url.Parse` on a path: every `%` is followed by two
hexadecimal digits.  It is run on the whole URL, which is all path as long as
the id has no `?` and no `#`; control characters, which `url.Parse` also
rejects, are not looked at. -/
def escapesOK : List Char → Bool
  | [] => true
  | c :: rest =>
    if c = '%' then
      match rest with
      | a :: b :: rest2 => ishex a && ishex b && escapesOK rest2
      | _ => false
    else escapesOK rest

/-- Whether `http.NewRequest` and `http.Get` accept the URL: `url.Parse` returns
an `invalid URL escape` error unless the escapes are well formed. -/
def urlParses (url : String) : Bool := escapesOK url.data

/-- The URL built by `updateTask`: `fmt.Sprintf("%s/api/tasks/%d", sqliteAPIURL, task.ID)`. -/
def updateTaskURL (task : Task) : String :=
  sqliteAPIURL ++ "/api/tasks/" ++ fmtD task.ID

/-- The URL built by `getTaskByID` and by `deleteTask`:
`fmt.Sprintf("%s/api/tasks/%s", sqliteAPIURL, id)`. -/
def taskURL (id : String) : String :=
  sqliteAPIURL ++ "/api/tasks/" ++ id

/-- The key a URL of the upstream service addresses: what follows
`sqliteAPIURL/api/tasks/`.  That is the whole id pasted into the URL when the id
has no `?`, `#`, `/` and `%`; with one of these the service sees only a part of
it or a decoded form, which is not modelled. -/
def urlKey (url : String) : String :=
  ⟨url.data.drop (sqliteAPIURL ++ "/api/tasks/").length⟩

/-- The column `id` of the table is declared `TEXT`: SQLite stores a number given
for it as its decimal text, and a stored id comes back from `Scan` as a string
(`NULL` as `nil`). -/
def sqlText : TaskID → TaskID
  | .int n => .str (toString n)
  | .str s => .str s
  | .nil => .nil

/-- A row as `rows.Scan` and `QueryRow(...).Scan` return it. -/
def scanRow (r : Task) : Task :=
  { r with ID := sqlText r.ID }

/-- An `INSERT INTO tasks`: the id is stored as text, and the column `id` is the
primary key, so the insert fails when a row has the same id; a `NULL` id
clashes with no row. -/
def insertRow (row : Task) (tasks : List Task) : Option (List Task) :=
  if sqlText row.ID ≠ .nil ∧ tasks.any (fun r => sqlText r.ID = sqlText row.ID) then none
  else some (tasks ++ [scanRow row])

/-- Modelled from the spec: the upstream service behind `sqliteAPIURL`, of which
this repository holds only the callers.  It is a record store with the same
contract over the same records: insert assigns a new id when the task has none
and answers with the id. -/
def upstreamInsert (newID : String) (task : Task) (tasks : List Task) :
    Option (String × List Task) :=
  let row : Task :=
    if task.ID = .nil ∨ task.ID = .str "" then { task with ID := .str newID } else task
  match insertRow row tasks with
  | none => none
  | some tasks1 => some (getTaskIDString (scanRow row), tasks1)

/-- Modelled from the spec: the upstream service, get by primary id.  The record
whose id, as a string, is the key; none is `NotFound`. -/
def upstreamGet (key : String) (tasks : List Task) : Option Task :=
  (tasks.find? (fun r => getTaskIDString r = key)).map scanRow

/-- Modelled from the spec: the upstream service, update by primary id.  No
record with the key is `NotFound`; otherwise the record takes the business
fields, the device id, the record id and the update time of the body. -/
def upstreamUpdate (key : String) (body : Task) (tasks : List Task) : Option (List Task) :=
  if tasks.any (fun r => getTaskIDString r = key) then
    some (tasks.map (fun r =>
      if getTaskIDString r = key then
        { r with Title := body.Title, Description := body.Description, DueDate := body.DueDate,
                 IsCompleted := body.IsCompleted, Category := body.Category,
                 Priority := body.Priority, DeviceID := body.DeviceID,
                 RecordID := body.RecordID, UpdatedAt := body.UpdatedAt }
      else r))
  else none

/-- Modelled from the spec: the upstream service, delete by primary id.  No
record with the key is `NotFound`. -/
def upstreamDelete (key : String) (tasks : List Task) : Option (List Task) :=
  if tasks.any (fun r => getTaskIDString r = key) then
    some (tasks.filter (fun r => getTaskIDString r ≠ key))
  else none

/-! ## Store access functions -/

/-- The function `getAllTasks`: the rows of the scope, `ORDER BY created_at DESC`.
`ioErr` tells whether `db.Query` returns an error.  Every column of a stored row
holds a value, so `rows.Scan` does not fail and no row is skipped. -/
def getAllTasks (ioErr : Bool) (userID : String) (w : World) : Except String (List Task) :=
  if ioErr then .error "db.Query" else
    .ok (((w.tasks.filter (fun r => r.UserID = userID)).insertionSort
      (fun a b => b.CreatedAt ≤ a.CreatedAt)).map scanRow)

/-- The function `findDuplicateTask`. -/
def findDuplicateTask (ioErr : Bool) (title deviceID userID : String) (w : World) :
    Except String (Option Task) :=
  match getAllTasks ioErr userID w with
  | .error err => .error err
  | .ok tasks => .ok (tasks.find? (fun task => task.Title = title && task.DeviceID = deviceID))

/-- The function `getTaskByID`: `http.Get` on `taskURL id`; a status other than
200 is an error. -/
def getTaskByID (ioErr : Bool) (id : String) (w : World) : Except String Task :=
  if !urlParses (taskURL id) || ioErr then .error "http.Get" else
    match upstreamGet (urlKey (taskURL id)) w.tasks with
    | none => .error "API请求失败"
    | some task => .ok task

/-- The function `createTask`: `http.Post` of the task; a status other than 200
and 201 is an error, otherwise the id of the response is returned. -/
def createTask (env : Env) (ioErr : Bool) (task : Task) (w : World) :
    Except String (String × World) :=
  if ioErr then .error "http.Post" else
    match upstreamInsert env.newID task w.tasks with
    | none => .error "创建任务失败"
    | some (id, tasks1) => .ok (id, { w with tasks := tasks1 })

/-- The function `updateTask`: a `PUT` on `updateTaskURL task`; `http.NewRequest`
fails on a URL that does not parse, and a status other than 200 is an error. -/
def updateTask (ioErr : Bool) (task : Task) (w : World) : Except String World :=
  if !urlParses (updateTaskURL task) then .error "http.NewRequest" else
    if ioErr then .error "client.Do" else
      match upstreamUpdate (urlKey (updateTaskURL task)) task w.tasks with
      | none => .error "更新任务失败"
      | some tasks1 => .ok { w with tasks := tasks1 }

/-- The function `deleteTask`: a `DELETE` on `taskURL id`. -/
def deleteTask (ioErr : Bool) (id : String) (w : World) : Except String World :=
  if !urlParses (taskURL id) then .error "http.NewRequest" else
    if ioErr then .error "client.Do" else
      match upstreamDelete (urlKey (taskURL id)) w.tasks with
      | none => .error "删除任务失败"
      | some tasks1 => .ok { w with tasks := tasks1 }

/-! ## The reconciliation engine on the push channel -/

/-- The function `createTaskViaAPI`.  The inserted row takes `CURRENT_TIMESTAMP`
in both time columns; the event carries the task of the caller. -/
def createTaskViaAPI (env : Env) (task : Task) (w : World) : Error × World :=
  let task : Task :=
    if task.ID = .nil ∨ task.ID = .str "" then
      { task with ID := .str ("task_" ++ toString env.unixNano) }
    else task
  if env.storeErr 0 then (some "db.Exec", w) else
    match insertRow { task with CreatedAt := env.currentTimestamp,
                                UpdatedAt := env.currentTimestamp } w.tasks with
    | none => (some "UNIQUE constraint failed: tasks.id", w)
    | some tasks1 => (none, broadcastTaskChange "task_created" task { w with tasks := tasks1 })

/-- The `WHERE` clause of `updateTaskViaAPI`, of its `UPDATE` and of its `SELECT`. -/
def updateWhere (task : Task) (r : Task) : Bool :=
  if task.RecordID ≠ "" then
    r.RecordID = task.RecordID && r.UserID = task.UserID
  else
    r.Title = task.Title && r.DeviceID = task.DeviceID && r.UserID = task.UserID

/-- The `SET` clause of `updateTaskViaAPI`. -/
def updateSet (env : Env) (task : Task) (r : Task) : Task :=
  if task.RecordID ≠ "" then
    { r with Title := task.Title, Description := task.Description, DueDate := task.DueDate,
             IsCompleted := task.IsCompleted, Category := task.Category,
             Priority := task.Priority, DeviceID := task.DeviceID,
             UpdatedAt := env.currentTimestamp }
  else
    { r with Description := task.Description, DueDate := task.DueDate,
             IsCompleted := task.IsCompleted, Category := task.Category,
             Priority := task.Priority, UpdatedAt := env.currentTimestamp }

/-- The effect of the `UPDATE` of `updateTaskViaAPI` on one row. -/
def updateRow (env : Env) (task : Task) (r : Task) : Task :=
  if updateWhere task r then updateSet env task r else r

/-- The function `updateTaskViaAPI`.  `RowsAffected` of the SQLite driver returns
no error.  When the `SELECT` after the update fails, the task of the caller is
broadcast. -/
def updateTaskViaAPI (env : Env) (task : Task) (w : World) : Error × World :=
  if env.storeErr 0 then (some "db.Exec", w) else
    let rowsAffected := (w.tasks.filter (updateWhere task)).length
    let w1 : World := { w with tasks := w.tasks.map (updateRow env task) }
    if rowsAffected = 0 then (some "未找到要更新的任务", w1) else
      let updatedTask : Task :=
        if env.storeErr 1 then task else
          match w1.tasks.find? (updateWhere task) with
          | some r => scanRow r
          | none => task
      (none, broadcastTaskChange "task_updated" updatedTask w1)

/-- The `WHERE` clause of `deleteTaskViaAPI`, of its `SELECT` and of its `DELETE`. -/
def deleteWhere (recordID title deviceID : String) (r : Task) : Bool :=
  if recordID ≠ "" then r.RecordID = recordID
  else r.Title = title && r.DeviceID = deviceID

/-- The function `deleteTaskViaAPI`. -/
def deleteTaskViaAPI (env : Env) (recordID title deviceID : String) (w : World) : Error × World :=
  if env.storeErr 0 then (some "db.QueryRow", w) else
    match w.tasks.find? (deleteWhere recordID title deviceID) with
    | none => (some "未找到要删除的任务", w)
    | some found =>
      let targetTask : Task := scanRow found
      if env.storeErr 1 then (some "db.Exec", w) else
        let rowsAffected := (w.tasks.filter (deleteWhere recordID title deviceID)).length
        let w1 : World :=
          { w with tasks := w.tasks.filter (fun r => !deleteWhere recordID title deviceID r) }
        if rowsAffected = 0 then (some "删除任务失败", w1) else
          (none, broadcastTaskChange "task_deleted" targetTask w1)

/-- The values `getString`, `getBool` and `getInt` read from the keys of the
decoded `map[string]interface{}` of a push message. -/
structure TaskMap where
  user_id : String
  title : String
  description : String
  due_date : String
  is_completed : Bool
  category : String
  priority : Int
  device_id : String
  record_id : String
  deriving DecidableEq, Repr

/-- The task built by `handleCreateTask` and by `handleUpdateTask` from the map. -/
def taskOfMap (taskMap : TaskMap) : Task :=
  { ID := .nil, UserID := taskMap.user_id, Title := taskMap.title,
    Description := taskMap.description, DueDate := taskMap.due_date,
    IsCompleted := taskMap.is_completed, Category := taskMap.category,
    Priority := taskMap.priority, DeviceID := taskMap.device_id,
    RecordID := taskMap.record_id, CreatedAt := "", UpdatedAt := "" }

/-- The function `handleCreateTask`; `none` is data that is no JSON object. -/
def handleCreateTask (env : Env) (data : Option TaskMap) (w : World) : World :=
  match data with
  | none => w
  | some taskMap => (createTaskViaAPI env (taskOfMap taskMap) w).2

/-- The function `handleUpdateTask`. -/
def handleUpdateTask (env : Env) (data : Option TaskMap) (w : World) : World :=
  match data with
  | none => w
  | some taskMap => (updateTaskViaAPI env (taskOfMap taskMap) w).2

/-- The function `handleDeleteTask`. -/
def handleDeleteTask (env : Env) (data : Option TaskMap) (w : World) : World :=
  match data with
  | none => w
  | some taskMap =>
    (deleteTaskViaAPI env taskMap.record_id taskMap.title taskMap.device_id w).2

/-! ## The REST handlers -/

/-- What a handler writes: a task as JSON, a message as JSON, or `http.Error`. -/
inductive Response where
  | json (task : Task)
  | message (text : String)
  | error (status : Nat) (text : String)
  deriving DecidableEq, Repr

/-- The body of `createTaskHandler` over the three store calls it makes, each a
function of the world: `find` for `findDuplicateTask`, `update` for `updateTask`,
`create` for `createTask`; `none` is a body that does not decode. -/
def createTaskHandlerWith
    (find : String → String → String → World → Except String (Option Task))
    (update : Task → World → Except String World)
    (create : Task → World → Except String (String × World))
    (env : Env) (body : Option Task) (w : World) : Response × World :=
  match body with
  | none => (.error 400 "json.Decode", w)
  | some task =>
    match find task.Title task.DeviceID task.UserID w with
    | .error err => (.error 500 err, w)
    | .ok (some found) =>
      let existingTask : Task :=
        { found with Description := task.Description, DueDate := task.DueDate,
                     IsCompleted := task.IsCompleted, RecordID := task.RecordID,
                     UpdatedAt := env.now }
      match update existingTask w with
      | .error err => (.error 500 err, w)
      | .ok w1 => (.json existingTask, broadcastTaskChange "task_updated" existingTask w1)
    | .ok none =>
      let task1 : Task :=
        { task with UserID := "default_user", CreatedAt := env.now, UpdatedAt := env.now }
      match create task1 w with
      | .error err => (.error 500 err, w)
      | .ok (id, w1) =>
        let task2 : Task := { task1 with ID := .str id }
        (.json task2, broadcastTaskChange "task_created" task2 w1)

/-- The function `createTaskHandler`: its body over the store calls of the
program, the first the call 0 and the second the call 1 of the request. -/
def createTaskHandler (env : Env) (body : Option Task) (w : World) : Response × World :=
  createTaskHandlerWith (findDuplicateTask (env.storeErr 0)) (updateTask (env.storeErr 1))
    (createTask env (env.storeErr 1)) env body w

/-- The body of `updateTaskHandler` over the store call it makes, `update` for
`updateTask`. -/
def updateTaskHandlerWith (update : Task → World → Except String World)
    (env : Env) (id : String) (body : Option Task) (w : World) : Response × World :=
  if id = "" then (.error 400 "Invalid task ID", w) else
    match body with
    | none => (.error 400 "json.Decode", w)
    | some task =>
      let task1 : Task := { task with ID := .str id, UpdatedAt := env.now }
      match update task1 w with
      | .error err => (.error 500 err, w)
      | .ok w1 => (.json task1, broadcastTaskChange "task_updated" task1 w1)

/-- The function `updateTaskHandler`: its body over `updateTask`, the call 0 of
the request. -/
def updateTaskHandler (env : Env) (id : String) (body : Option Task) (w : World) :
    Response × World :=
  updateTaskHandlerWith (updateTask (env.storeErr 0)) env id body w

/-- The body of `deleteTaskHandler` over the two store calls it makes, `get` for
`getTaskByID` and `delete` for `deleteTask`. -/
def deleteTaskHandlerWith (get : String → World → Except String Task)
    (delete : String → World → Except String World)
    (id : String) (w : World) : Response × World :=
  if id = "" then (.error 400 "Invalid task ID", w) else
    match get id w with
    | .error err => (.error 500 err, w)
    | .ok task =>
      match delete id w with
      | .error err => (.error 500 err, w)
      | .ok w1 => (.message "任务删除成功", broadcastTaskChange "task_deleted" task w1)

/-- The function `deleteTaskHandler`: its body over `getTaskByID`, the call 0 of
the request, and `deleteTask`, the call 1. -/
def deleteTaskHandler (env : Env) (id : String) (w : World) : Response × World :=
  deleteTaskHandlerWith (getTaskByID (env.storeErr 0)) (deleteTask (env.storeErr 1)) id w


/-- Whether a response is a success. -/
def Response.isOK : Response → Bool
  | .error _ _ => false
  | _ => true

/-- The event rule between the world before and after a run: one more message on
the broadcast channel when the run succeeded, the same messages when it failed. -/
def EventRule (ok : Bool) (w w1 : World) : Prop :=
  (ok = true → ∃ e, w1.broadcast = w.broadcast ++ [e]) ∧
  (ok = false → w1.broadcast = w.broadcast)

/-- Two rows that the store predicate forbids together: same scope, and either
the same non-empty record id or, both record ids empty, the same title and
device id. -/
def keyClash (a b : Task) : Bool :=
  a.UserID = b.UserID &&
    ((a.RecordID ≠ "" && a.RecordID = b.RecordID) ||
     (a.RecordID = "" && b.RecordID = "" && a.Title = b.Title && a.DeviceID = b.DeviceID))

/-- The store predicate of the data model: within each scope, no two stored tasks
share a non-empty record id, and no two stored tasks with empty record id share
the pair of title and device id. -/
def StoreInv (tasks : List Task) : Prop :=
  tasks.Pairwise (fun a b => keyClash a b = false)

instance StoreInv.decidable (tasks : List Task) : Decidable (StoreInv tasks) := by
  unfold StoreInv; infer_instance

/-! ## Sample inputs -/

/-- An environment at clock reading `n` in which no store call fails and the
upstream service hands out `id`. -/
def sampleEnv (n : Int) (id : String) : Env :=
  { now := "2024-01-01 10:00:00", unixNano := n, currentTimestamp := "2024-01-01 10:00:00",
    newID := id, storeErr := fun _ => false }

/-- A stored task with record id `r1`. -/
def rowA : Task :=
  { ID := .str "task_1", UserID := "default_user", Title := "A", Description := "", DueDate := "",
    IsCompleted := false, Category := "", Priority := 1, DeviceID := "dev1", RecordID := "r1",
    CreatedAt := "2024-01-01 09:00:00", UpdatedAt := "2024-01-01 09:00:00" }

/-- A stored task with record id `r2`. -/
def rowB : Task :=
  { rowA with ID := .str "task_2", Title := "B", RecordID := "r2" }

/-- A stored task without record id. -/
def rowN : Task :=
  { rowA with ID := .str "task_3", Title := "N", RecordID := "" }

/-- A request that carries the record id of `rowA` and the title and device id of `rowB`. -/
def reqR1B : Task :=
  { ID := .nil, UserID := "default_user", Title := "B", Description := "new", DueDate := "",
    IsCompleted := true, Category := "", Priority := 2, DeviceID := "dev1", RecordID := "r1",
    CreatedAt := "", UpdatedAt := "" }

/-- A request without record id that carries the title and device id of `rowN`. -/
def reqN : Task :=
  { reqR1B with Title := "N", RecordID := "" }

/-- The data of a `create_task` message. -/
def milk : TaskMap :=
  { user_id := "default_user", title := "Buy milk", description := "", due_date := "",
    is_completed := false, category := "", priority := 0, device_id := "dev1", record_id := "" }

/-- The body of a create request that names no scope and no id. -/
def milkBody : Task :=
  { ID := .nil, UserID := "", Title := "Buy milk", Description := "", DueDate := "",
    IsCompleted := false, Category := "", Priority := 0, DeviceID := "dev1", RecordID := "",
    CreatedAt := "", UpdatedAt := "" }

/-! ## Runs of the hub -/

/-- The hub that `main` builds: `make(map[*websocket.Conn]bool)`, nothing written,
nothing closed. -/
def Hub.empty : Hub := ⟨[], [], []⟩

/-- The loop `for { select ... }` of `Hub.run` over a finite sequence of received
requests, each with the write outcomes of its iteration. -/
def Hub.runAll (h : Hub) : List (HubRequest × (Conn → Bool)) → Hub
  | [] => h
  | step :: rest => Hub.runAll (h.run step.2 step.1) rest

/-- Whether no request of the sequence registers a connection that the hub has
removed before.  The hub closes every connection it removes, so the removed
connections are those of the log `closed`. -/
def noReregister (h : Hub) : List (HubRequest × (Conn → Bool)) → Bool
  | [] => true
  | step :: rest =>
    (match step.1 with
      | .register client => decide (client ∉ h.closed)
      | _ => true) && noReregister (h.run step.2 step.1) rest

/-- The connections that the requests of a sequence register. -/
def registered : List (HubRequest × (Conn → Bool)) → List Conn
  | [] => []
  | step :: rest =>
    match step.1 with
    | .register client => client :: registered rest
    | _ => registered rest

/-- A stored task of the scope `alice`, without record id. -/
def rowAlice : Task :=
  { ID := .str "task_4", UserID := "alice", Title := "Buy milk", Description := "", DueDate := "",
    IsCompleted := false, Category := "", Priority := 1, DeviceID := "dev1", RecordID := "",
    CreatedAt := "2024-01-01 09:00:00", UpdatedAt := "2024-01-01 09:00:00" }

/-- A stored task of the scope `bob` with the title and device id of `rowAlice`. -/
def rowBob : Task :=
  { rowAlice with ID := .str "task_5", UserID := "bob", Description := "for bob" }

/-- The data of a `delete_task` message sent by a client of the scope `alice`. -/
def deleteMilk : TaskMap :=
  { user_id := "alice", title := "Buy milk", description := "", due_date := "",
    is_completed := false, category := "", priority := 0, device_id := "dev1", record_id := "" }

/-- A run of the hub: three connections register, a broadcast fails on connection
2, connections 2 and 1 unregister, a second broadcast fails on connection 3. -/
def sampleRun : List (HubRequest × (Conn → Bool)) :=
  [(.register 1, fun _ => true), (.register 2, fun _ => true), (.register 3, fun _ => true),
   (.broadcast ⟨"task_created", .text "x"⟩, fun c => decide (c ≠ 2)),
   (.unregister 2, fun _ => true), (.unregister 1, fun _ => true),
   (.broadcast ⟨"task_updated", .text "y"⟩, fun c => decide (c ≠ 3))]

/-- The row `rowA` after an update with the request `reqR1B` at the clock of
`sampleEnv`. -/
def rowAUpdated : Task :=
  { rowA with Title := "B", Description := "new", IsCompleted := true, Priority := 2,
              UpdatedAt := "2024-01-01 10:00:00" }

/-- A stored task of the scope `bob` with the record id `r1` of `rowA`. -/
def rowA2 : Task :=
  { rowA with ID := .str "task_6", UserID := "bob" }

/-- The data of a `delete_task` message that carries the record id of `rowA` and
the title and device id of `rowB`. -/
def deleteR1B : TaskMap :=
  { user_id := "default_user", title := "B", description := "", due_date := "",
    is_completed := false, category := "", priority := 0, device_id := "dev1",
    record_id := "r1" }

/-- A store call that answers every update with success and changes no row. -/
def acceptUpdate : Task → World → Except String World :=
  fun _ w => .ok w

/-! ## Lemmas on the hub -/

theorem Hub.broadcastLoop_spec (message : WSMessage) (writeOK : Conn → Bool) :
    ∀ (todo : List Conn) (h : Hub), todo.Nodup → (∀ c ∈ todo, c ∈ h.clients) →
      (Hub.broadcastLoop message writeOK todo h).written
          = h.written ++ todo.map (fun c => (c, message)) ∧
      (Hub.broadcastLoop message writeOK todo h).clients
          = h.clients.filter (fun c => decide (c ∉ todo) || writeOK c) ∧
      (Hub.broadcastLoop message writeOK todo h).closed
          = h.closed ++ todo.filter (fun c => !writeOK c)
  | [], h, _, _ => by simp [Hub.broadcastLoop]
  | client :: rest, h, hnd, hsub => by
    have hin : client ∈ h.clients := hsub client (List.mem_cons_self _ _)
    have hnd' : rest.Nodup := (List.nodup_cons.mp hnd).2
    have hnot : client ∉ rest := (List.nodup_cons.mp hnd).1
    cases hw : writeOK client with
    | true =>
      have ih := Hub.broadcastLoop_spec message writeOK rest
        { h with written := h.written ++ [(client, message)] } hnd'
        (fun c hc => hsub c (List.mem_cons_of_mem _ hc))
      simp only [Hub.broadcastLoop, hin, if_true, hw, Bool.false_eq_true, if_false]
      obtain ⟨h1, h2, h3⟩ := ih
      refine ⟨?_, ?_, ?_⟩
      · rw [h1]; simp
      · rw [h2]
        apply List.filter_congr
        intro c _
        by_cases hc : c = client
        · subst hc; simp [hw]
        · simp [hc]
      · rw [h3]; simp [List.filter_cons, hw]
    | false =>
      have ih := Hub.broadcastLoop_spec message writeOK rest
        (({ h with written := h.written ++ [(client, message)] } : Hub).delete client |>.close client)
        hnd'
        (fun c hc => by
          have : c ≠ client := fun e => hnot (e ▸ hc)
          simp [Hub.delete, Hub.close, hsub c (List.mem_cons_of_mem _ hc), this])
      simp only [Hub.broadcastLoop, hin, if_true, hw, Bool.false_eq_true, if_false]
      obtain ⟨h1, h2, h3⟩ := ih
      refine ⟨?_, ?_, ?_⟩
      · rw [h1]; simp [Hub.delete, Hub.close]
      · rw [h2]
        simp only [Hub.delete, Hub.close, List.filter_filter]
        apply List.filter_congr
        intro c _
        by_cases hc : c = client
        · subst hc; simp [hw]
        · simp [hc]
      · rw [h3]; simp [Hub.delete, Hub.close, List.filter_cons, hw]

/-! ## Lemmas on the engine -/

theorem filter_map_frame {α : Type} (p : α → Bool) (g : α → α)
    (h1 : ∀ x, p (g x) = p x) (h2 : ∀ x, p x = true → g x = x) :
    ∀ l : List α, (l.map g).filter p = l.filter p
  | [] => rfl
  | x :: l => by
    have ih := filter_map_frame p g h1 h2 l
    cases hp : p x with
    | true => simp [List.filter_cons, h1, hp, h2 x hp, ih]
    | false => simp [List.filter_cons, h1, hp, ih]

theorem updateSet_RecordID (env : Env) (task r : Task) :
    (updateSet env task r).RecordID = r.RecordID := by
  unfold updateSet; split <;> rfl

theorem updateSet_UserID (env : Env) (task r : Task) :
    (updateSet env task r).UserID = r.UserID := by
  unfold updateSet; split <;> rfl

theorem updateTaskViaAPI_tasks (env : Env) (task : Task) (w : World) :
    (updateTaskViaAPI env task w).2.tasks =
      if env.storeErr 0 then w.tasks
      else w.tasks.map (updateRow env task) := by
  unfold updateTaskViaAPI
  by_cases h0 : env.storeErr 0 = true
  · simp [h0]
  · simp only [h0, if_false, Bool.false_eq_true]
    split <;> simp [broadcastTaskChange]

theorem deleteTaskViaAPI_tasks (env : Env) (recordID title deviceID : String) (w : World) :
    (deleteTaskViaAPI env recordID title deviceID w).2.tasks = w.tasks ∨
    (deleteTaskViaAPI env recordID title deviceID w).2.tasks =
      w.tasks.filter (fun r => !deleteWhere recordID title deviceID r) := by
  unfold deleteTaskViaAPI
  by_cases h0 : env.storeErr 0 = true
  · simp [h0]
  · simp only [h0, if_false, Bool.false_eq_true]
    split
    · simp
    · by_cases h1 : env.storeErr 1 = true
      · simp [h1]
      · simp only [h1, if_false, Bool.false_eq_true]
        split <;> simp [broadcastTaskChange]

theorem updateTask_broadcast {io : Bool} {task : Task} {w w1 : World}
    (h : updateTask io task w = .ok w1) : w1.broadcast = w.broadcast := by
  unfold updateTask at h
  split at h
  · cases h
  · split at h
    · cases h
    · split at h
      · cases h
      · cases h; rfl

theorem createTask_broadcast {env : Env} {io : Bool} {task : Task} {w w1 : World} {id : String}
    (h : createTask env io task w = .ok (id, w1)) : w1.broadcast = w.broadcast := by
  unfold createTask at h
  split at h
  · cases h
  · split at h
    · cases h
    · cases h; rfl

theorem deleteTask_broadcast {io : Bool} {id : String} {w w1 : World}
    (h : deleteTask io id w = .ok w1) : w1.broadcast = w.broadcast := by
  unfold deleteTask at h
  split at h
  · cases h
  · split at h
    · cases h
    · split at h
      · cases h
      · cases h; rfl

theorem createTaskViaAPI_events (env : Env) (task : Task) (w : World) :
    EventRule (createTaskViaAPI env task w).1.isNone w (createTaskViaAPI env task w).2 := by
  unfold createTaskViaAPI EventRule
  by_cases h0 : env.storeErr 0 = true
  · simp [h0]
  · simp only [h0, if_false, Bool.false_eq_true]
    split <;> simp [broadcastTaskChange]

theorem updateTaskViaAPI_events (env : Env) (task : Task) (w : World) :
    EventRule (updateTaskViaAPI env task w).1.isNone w (updateTaskViaAPI env task w).2 := by
  unfold updateTaskViaAPI EventRule
  by_cases h0 : env.storeErr 0 = true
  · simp [h0]
  · simp only [h0, if_false, Bool.false_eq_true]
    split <;> simp [broadcastTaskChange]

theorem deleteTaskViaAPI_events (env : Env) (recordID title deviceID : String) (w : World) :
    EventRule (deleteTaskViaAPI env recordID title deviceID w).1.isNone w
      (deleteTaskViaAPI env recordID title deviceID w).2 := by
  unfold deleteTaskViaAPI EventRule
  by_cases h0 : env.storeErr 0 = true
  · simp [h0]
  · simp only [h0, if_false, Bool.false_eq_true]
    split
    · simp
    · by_cases h1 : env.storeErr 1 = true
      · simp [h1]
      · simp only [h1, if_false, Bool.false_eq_true]
        split <;> simp [broadcastTaskChange]

theorem createTaskHandlerWith_events
    (find : String → String → String → World → Except String (Option Task))
    (update : Task → World → Except String World)
    (create : Task → World → Except String (String × World))
    (hupdate : ∀ t w w1, update t w = .ok w1 → w1.broadcast = w.broadcast)
    (hcreate : ∀ t w id w1, create t w = .ok (id, w1) → w1.broadcast = w.broadcast)
    (env : Env) (body : Option Task) (w : World) :
    EventRule (createTaskHandlerWith find update create env body w).1.isOK w
      (createTaskHandlerWith find update create env body w).2 := by
  unfold createTaskHandlerWith EventRule
  split
  · simp [Response.isOK]
  · split
    · simp [Response.isOK]
    · dsimp only
      split
      · simp [Response.isOK]
      · rename_i w1 h
        simp [Response.isOK, broadcastTaskChange, hupdate _ _ _ h]
    · dsimp only
      split
      · simp [Response.isOK]
      · rename_i id w1 h
        simp [Response.isOK, broadcastTaskChange, hcreate _ _ _ _ h]

theorem updateTaskHandlerWith_events (update : Task → World → Except String World)
    (hupdate : ∀ t w w1, update t w = .ok w1 → w1.broadcast = w.broadcast)
    (env : Env) (id : String) (body : Option Task) (w : World) :
    EventRule (updateTaskHandlerWith update env id body w).1.isOK w
      (updateTaskHandlerWith update env id body w).2 := by
  unfold updateTaskHandlerWith EventRule
  split
  · simp [Response.isOK]
  · split
    · simp [Response.isOK]
    · dsimp only
      split
      · simp [Response.isOK]
      · rename_i w1 h
        simp [Response.isOK, broadcastTaskChange, hupdate _ _ _ h]

theorem deleteTaskHandlerWith_events (get : String → World → Except String Task)
    (delete : String → World → Except String World)
    (hdelete : ∀ i w w1, delete i w = .ok w1 → w1.broadcast = w.broadcast)
    (id : String) (w : World) :
    EventRule (deleteTaskHandlerWith get delete id w).1.isOK w
      (deleteTaskHandlerWith get delete id w).2 := by
  unfold deleteTaskHandlerWith EventRule
  split
  · simp [Response.isOK]
  · split
    · simp [Response.isOK]
    · split
      · simp [Response.isOK]
      · rename_i w1 h
        simp [Response.isOK, broadcastTaskChange, hdelete _ _ _ h]

theorem createTaskHandler_events (env : Env) (body : Option Task) (w : World) :
    EventRule (createTaskHandler env body w).1.isOK w (createTaskHandler env body w).2 :=
  createTaskHandlerWith_events _ _ _ (fun _ _ _ h => updateTask_broadcast h)
    (fun _ _ _ _ h => createTask_broadcast h) env body w

theorem updateTaskHandler_events (env : Env) (id : String) (body : Option Task) (w : World) :
    EventRule (updateTaskHandler env id body w).1.isOK w (updateTaskHandler env id body w).2 :=
  updateTaskHandlerWith_events _ (fun _ _ _ h => updateTask_broadcast h) env id body w

theorem deleteTaskHandler_events (env : Env) (id : String) (w : World) :
    EventRule (deleteTaskHandler env id w).1.isOK w (deleteTaskHandler env id w).2 :=
  deleteTaskHandlerWith_events _ _ (fun _ _ _ h => deleteTask_broadcast h) id w

theorem map_updateRow_of_no_match (env : Env) (task : Task) (l : List Task)
    (h : ∀ x ∈ l, updateWhere task x = false) : l.map (updateRow env task) = l := by
  conv_rhs => rw [← List.map_id l]
  apply List.map_congr_left
  intro r hr; simp [updateRow, h r hr]

theorem filter_of_no_match (p : Task → Bool) (l : List Task)
    (h : ∀ x ∈ l, p x = false) : l.filter p = [] := by
  rw [List.filter_eq_nil_iff]; intro r hr; simp [h r hr]

theorem find_of_no_match (p : Task → Bool) (l : List Task)
    (h : ∀ x ∈ l, p x = false) : l.find? p = none := by
  rw [List.find?_eq_none]; intro r hr; simp [h r hr]

theorem updateWhere_updateSet (env : Env) (task r : Task) (h : updateWhere task r = true) :
    updateWhere task (updateSet env task r) = true := by
  unfold updateWhere updateSet at *
  split at h <;> simp_all

theorem updateTaskViaAPI_ok (env : Env) (task : Task) (w : World) (A : Task)
    (hio : env.storeErr 0 = false) (hA : A ∈ w.tasks) (hm : updateWhere task A = true) :
    (updateTaskViaAPI env task w).1 = none := by
  have hne : (w.tasks.filter (updateWhere task)).length ≠ 0 := by
    have : A ∈ w.tasks.filter (updateWhere task) := List.mem_filter.mpr ⟨hA, hm⟩
    intro h0
    rw [List.length_eq_zero] at h0
    rw [h0] at this
    exact (List.not_mem_nil _ this)
  unfold updateTaskViaAPI
  simp [hio, hne]

theorem deleteTaskViaAPI_ok (env : Env) (recordID title deviceID : String) (w : World) (A : Task)
    (h0 : env.storeErr 0 = false) (h1 : env.storeErr 1 = false) (hA : A ∈ w.tasks)
    (hm : deleteWhere recordID title deviceID A = true) :
    (deleteTaskViaAPI env recordID title deviceID w).1 = none ∧
    (deleteTaskViaAPI env recordID title deviceID w).2.tasks
      = w.tasks.filter (fun r => !deleteWhere recordID title deviceID r) := by
  have hmem : A ∈ w.tasks.filter (deleteWhere recordID title deviceID) :=
    List.mem_filter.mpr ⟨hA, hm⟩
  have hne : (w.tasks.filter (deleteWhere recordID title deviceID)).length ≠ 0 := by
    intro h
    rw [List.length_eq_zero] at h
    rw [h] at hmem
    exact (List.not_mem_nil _ hmem)
  have hfind : ∃ t, w.tasks.find? (deleteWhere recordID title deviceID) = some t := by
    cases hf : w.tasks.find? (deleteWhere recordID title deviceID) with
    | some t => exact ⟨t, rfl⟩
    | none =>
      rw [List.find?_eq_none] at hf
      exact absurd hm (by simpa using hf A hA)
  obtain ⟨t, ht⟩ := hfind
  unfold deleteTaskViaAPI
  simp [h0, h1, ht, hne, broadcastTaskChange]


theorem keyClash_updateRow (env : Env) (task a b : Task) :
    keyClash (updateRow env task a) (updateRow env task b) = keyClash a b := by
  by_cases hr : task.RecordID = ""
  · have h : ∀ r, (updateRow env task r).UserID = r.UserID ∧
        (updateRow env task r).RecordID = r.RecordID ∧
        (updateRow env task r).Title = r.Title ∧
        (updateRow env task r).DeviceID = r.DeviceID := by
      intro r
      unfold updateRow updateSet
      split <;> simp [hr]
    unfold keyClash
    rw [(h a).1, (h a).2.1, (h a).2.2.1, (h a).2.2.2, (h b).1, (h b).2.1, (h b).2.2.1,
      (h b).2.2.2]
  · have h : ∀ r, (updateRow env task r).UserID = r.UserID ∧
        (updateRow env task r).RecordID = r.RecordID ∧
        (r.RecordID = "" → updateRow env task r = r) := by
      intro r
      refine ⟨?_, ?_, ?_⟩
      · unfold updateRow; split
        · exact updateSet_UserID env task r
        · rfl
      · unfold updateRow; split
        · exact updateSet_RecordID env task r
        · rfl
      · intro he
        have : updateWhere task r = false := by
          unfold updateWhere
          simp only [ne_eq, hr, not_false_eq_true, if_true]
          have : r.RecordID ≠ task.RecordID := by rw [he]; exact fun e => hr e.symm
          simp [this]
        simp [updateRow, this]
    unfold keyClash
    rw [(h a).1, (h a).2.1, (h b).1, (h b).2.1]
    by_cases ha : a.RecordID = ""
    · by_cases hb : b.RecordID = ""
      · rw [(h a).2.2 ha, (h b).2.2 hb]
      · simp [ha, hb]
    · simp [ha]

theorem StoreInv_updateTaskViaAPI (env : Env) (task : Task) (w : World) (h : StoreInv w.tasks) :
    StoreInv (updateTaskViaAPI env task w).2.tasks := by
  rw [updateTaskViaAPI_tasks]
  split
  · exact h
  · unfold StoreInv at *
    rw [List.pairwise_map]
    exact h.imp (fun {a b} hab => by rw [keyClash_updateRow]; exact hab)

theorem StoreInv_deleteTaskViaAPI (env : Env) (recordID title deviceID : String) (w : World)
    (h : StoreInv w.tasks) :
    StoreInv (deleteTaskViaAPI env recordID title deviceID w).2.tasks := by
  rcases deleteTaskViaAPI_tasks env recordID title deviceID w with e | e
  · rw [e]; exact h
  · rw [e]; exact List.Pairwise.sublist (List.filter_sublist _) h

theorem escapesOK_cons_ne (c : Char) (rest : List Char) (hc : c ≠ '%') :
    escapesOK (c :: rest) = escapesOK rest := by
  conv_lhs => unfold escapesOK
  simp only [if_neg hc]

theorem escapesOK_append (pfx rest : List Char) (h : ∀ c ∈ pfx, c ≠ '%') :
    escapesOK (pfx ++ rest) = escapesOK rest := by
  induction pfx with
  | nil => rfl
  | cons c cs ih =>
    have hc : c ≠ '%' := h c (List.mem_cons_self _ _)
    have := ih (fun d hd => h d (List.mem_cons_of_mem _ hd))
    rw [List.cons_append, escapesOK_cons_ne _ _ hc, this]

theorem updateTask_str_fails (io : Bool) (task : Task) (s : String) (w : World)
    (h : task.ID = .str s) : updateTask io task w = .error "http.NewRequest" := by
  have hu : urlParses (updateTaskURL task) = false := by
    unfold urlParses updateTaskURL
    rw [h]
    show escapesOK ((sqliteAPIURL ++ "/api/tasks/").data ++ ("%!d(string=" ++ s ++ ")").data) = false
    rw [escapesOK_append _ _ (by decide)]
    show escapesOK ('%' :: '!' :: ("d(string=".data ++ s.data ++ ")".data)) = false
    simp [escapesOK, ishex]
  unfold updateTask
  simp [hu]

theorem updateTask_nil_fails (io : Bool) (task : Task) (w : World)
    (h : task.ID = .nil) : updateTask io task w = .error "http.NewRequest" := by
  have hu : urlParses (updateTaskURL task) = false := by
    unfold urlParses updateTaskURL
    rw [h]
    show escapesOK ((sqliteAPIURL ++ "/api/tasks/").data ++ "%!d(<nil>)".data) = false
    rw [escapesOK_append _ _ (by decide)]
    decide
  unfold updateTask
  simp [hu]

theorem updateTask_scanned_fails (io : Bool) (task r : Task) (w : World)
    (h : task.ID = sqlText r.ID) : updateTask io task w = .error "http.NewRequest" := by
  cases hr : r.ID with
  | nil => exact updateTask_nil_fails io task w (by rw [h, hr]; rfl)
  | str s => exact updateTask_str_fails io task s w (by rw [h, hr]; rfl)
  | int n => exact updateTask_str_fails io task (toString n) w (by rw [h, hr]; rfl)

/-- The merge branch of `createTaskHandler` never succeeds: the id of the found
task was scanned from the `TEXT` column, `updateTask` formats it with `%d`, and
`http.NewRequest` rejects the URL. -/
theorem createTaskHandler_merge_fails (env : Env) (task found : Task) (w : World)
    (h : findDuplicateTask (env.storeErr 0) task.Title task.DeviceID task.UserID w
      = .ok (some found)) :
    createTaskHandler env (some task) w = (.error 500 "http.NewRequest", w) := by
  have hid : ∃ r : Task, found.ID = sqlText r.ID := by
    unfold findDuplicateTask getAllTasks at h
    split at h
    · cases h
    · rename_i tasks hts
      split at hts
      · cases hts
      · cases hts
        injection h with h
        have hmem := List.mem_of_find?_eq_some h
        obtain ⟨r, _, hr⟩ := List.mem_map.mp hmem
        exact ⟨r, by rw [← hr]; rfl⟩
  obtain ⟨r, hr⟩ := hid
  unfold createTaskHandler createTaskHandlerWith
  simp only [h]
  rw [updateTask_scanned_fails (env.storeErr 1)
    { found with Description := task.Description, DueDate := task.DueDate,
                 IsCompleted := task.IsCompleted, RecordID := task.RecordID,
                 UpdatedAt := env.now } r w hr]

/-! ## The hub: fan-out and unregister -/

/-- C1: one broadcast of `e` in `Hub.run`, for every membership `M` (the keys of
the map, each once), every event and every assignment `writeOK` of write
outcomes.  The writes of the step are exactly one write of `e` to each
connection of `M`, in the order of the visit, and no other; a failed write does
not stop the later ones; the membership afterwards is the connections of `M`
whose write succeeded, and the connections closed in the step are those whose
write failed. -/
theorem hub_broadcast_fanout (h : Hub) (hM : h.clients.Nodup) (e : WSMessage)
    (writeOK : Conn → Bool) :
    (h.run writeOK (.broadcast e)).written = h.written ++ h.clients.map (fun c => (c, e)) ∧
    (h.run writeOK (.broadcast e)).clients = h.clients.filter (fun c => writeOK c) ∧
    (h.run writeOK (.broadcast e)).closed
      = h.closed ++ h.clients.filter (fun c => !writeOK c) := by
  obtain ⟨h1, h2, h3⟩ := Hub.broadcastLoop_spec e writeOK h.clients h hM (fun _ hc => hc)
  refine ⟨h1, ?_, h3⟩
  show (Hub.broadcastLoop e writeOK h.clients h).clients = _
  rw [h2]
  apply List.filter_congr
  intro c hc
  simp [hc]

/-- Witness of C1: three connections, the write to connection 2 fails. -/
theorem hub_broadcast_fanout_witness :
    (Hub.run ⟨[1, 2, 3], [], []⟩ (fun c => decide (c ≠ 2))
        (.broadcast ⟨"task_created", .text "x"⟩)).written
      = [(1, ⟨"task_created", .text "x"⟩), (2, ⟨"task_created", .text "x"⟩),
         (3, ⟨"task_created", .text "x"⟩)] ∧
    (Hub.run ⟨[1, 2, 3], [], []⟩ (fun c => decide (c ≠ 2))
        (.broadcast ⟨"task_created", .text "x"⟩)).clients = [1, 3] ∧
    (Hub.run ⟨[1, 2, 3], [], []⟩ (fun c => decide (c ≠ 2))
        (.broadcast ⟨"task_created", .text "x"⟩)).closed = [2] := by
  have h := hub_broadcast_fanout ⟨[1, 2, 3], [], []⟩ (by decide)
    ⟨"task_created", .text "x"⟩ (fun c => decide (c ≠ 2))
  refine ⟨?_, ?_, ?_⟩
  · rw [h.1]; rfl
  · rw [h.2.1]; rfl
  · rw [h.2.2]; rfl

/-! ## Create: the two create paths -/

/-- C2: the code at the failing input.  Two create requests with the body
`milkBody` (title `Buy milk`, device id `dev1`, no scope, no id), one after the
other on an empty store, every store call succeeding: `createTaskHandler` looks
for a duplicate in the scope of the request, the empty string, and stores under
`default_user`, so the second request finds nothing, answers with a second id
and the store holds two records with the same title and device id. -/
theorem createTaskHandler_stores_duplicate :
    (createTaskHandler (sampleEnv 2 "2") (some milkBody)
        (createTaskHandler (sampleEnv 1 "1") (some milkBody) ⟨[], []⟩).2).1
      = .json { milkBody with ID := .str "2", UserID := "default_user",
                              CreatedAt := "2024-01-01 10:00:00",
                              UpdatedAt := "2024-01-01 10:00:00" } ∧
    (createTaskHandler (sampleEnv 2 "2") (some milkBody)
        (createTaskHandler (sampleEnv 1 "1") (some milkBody) ⟨[], []⟩).2).2.tasks.map
        (fun r => (r.ID, r.UserID, r.Title, r.DeviceID))
      = [(.str "1", "default_user", "Buy milk", "dev1"),
         (.str "2", "default_user", "Buy milk", "dev1")] := by
  decide

/-- C3: the code at the failing input.  Two `create_task` messages with the same
title, device id and scope, handled one after the other by `handleCreateTask` on
an empty store at two clock readings: `createTaskViaAPI` inserts without a
search, so the store holds two records with that title and device id in that
scope, and two `task_created` events are submitted. -/
theorem createTaskViaAPI_stores_duplicate :
    (handleCreateTask (sampleEnv 2 "") (some milk)
        (handleCreateTask (sampleEnv 1 "") (some milk) ⟨[], []⟩)).tasks.map
        (fun r => (r.ID, r.UserID, r.Title, r.DeviceID))
      = [(.str "task_1", "default_user", "Buy milk", "dev1"),
         (.str "task_2", "default_user", "Buy milk", "dev1")] ∧
    (handleCreateTask (sampleEnv 2 "") (some milk)
        (handleCreateTask (sampleEnv 1 "") (some milk) ⟨[], []⟩)).broadcast.map
        (fun m => m.MsgType)
      = ["task_created", "task_created"] := by
  decide

/-! ## Update and delete: resolution by record id -/

/-- Resolution by record id spares the rows with another record id: a store holds
a record `A` with record id `r`, non-empty, and a record `B` whose record id is
not `r`; `task` carries `r`, and `title` and `deviceID` are the natural key of
the request, which may be that of `B`.  After `updateTaskViaAPI` and after
`deleteTaskViaAPI`, whatever the store errors, `B` is still stored and the rows
whose record id is not `r` are the same rows in the same order.  When the store
answers, the update succeeds on `A` (in the scope of the request) and the delete
succeeds and leaves no row with record id `r`, in any scope. -/
theorem recordID_request_acts_on_its_row (env : Env) (task : Task) (title deviceID : String)
    (w : World) (A B : Task) (hr : task.RecordID ≠ "") (hA : A ∈ w.tasks)
    (hAr : A.RecordID = task.RecordID) (hB : B ∈ w.tasks)
    (hBr : B.RecordID ≠ task.RecordID) :
    (B ∈ (updateTaskViaAPI env task w).2.tasks ∧
      (updateTaskViaAPI env task w).2.tasks.filter (fun x => x.RecordID ≠ task.RecordID)
        = w.tasks.filter (fun x => x.RecordID ≠ task.RecordID) ∧
      (env.storeErr 0 = false → A.UserID = task.UserID →
        (updateTaskViaAPI env task w).1 = none ∧
        updateSet env task A ∈ (updateTaskViaAPI env task w).2.tasks)) ∧
    (B ∈ (deleteTaskViaAPI env task.RecordID title deviceID w).2.tasks ∧
      (deleteTaskViaAPI env task.RecordID title deviceID w).2.tasks.filter
          (fun x => x.RecordID ≠ task.RecordID)
        = w.tasks.filter (fun x => x.RecordID ≠ task.RecordID) ∧
      (env.storeErr 0 = false → env.storeErr 1 = false →
        (deleteTaskViaAPI env task.RecordID title deviceID w).1 = none ∧
        ∀ x ∈ (deleteTaskViaAPI env task.RecordID title deviceID w).2.tasks,
          x.RecordID ≠ task.RecordID)) := by
  have hBf : B ∈ w.tasks.filter (fun x => x.RecordID ≠ task.RecordID) := by
    simp [List.mem_filter, hB, hBr]
  have hupd : (updateTaskViaAPI env task w).2.tasks.filter (fun x => x.RecordID ≠ task.RecordID)
        = w.tasks.filter (fun x => x.RecordID ≠ task.RecordID) := by
    rw [updateTaskViaAPI_tasks]
    split
    · rfl
    · apply filter_map_frame
      · intro x
        unfold updateRow
        split
        · rw [updateSet_RecordID]
        · rfl
      · intro x hx
        have : updateWhere task x = false := by
          simp only [updateWhere, hr, ne_eq, not_false_eq_true, if_true]
          simp at hx
          simp [hx]
        simp [updateRow, this]
  have hdel : (deleteTaskViaAPI env task.RecordID title deviceID w).2.tasks.filter
          (fun x => x.RecordID ≠ task.RecordID)
        = w.tasks.filter (fun x => x.RecordID ≠ task.RecordID) := by
    rcases deleteTaskViaAPI_tasks env task.RecordID title deviceID w with h | h
    · rw [h]
    · rw [h, List.filter_filter]
      apply List.filter_congr
      intro x _
      simp [deleteWhere, hr]
  refine ⟨⟨?_, hupd, ?_⟩, ⟨?_, hdel, ?_⟩⟩
  · have := hupd ▸ hBf
    exact (List.mem_filter.mp this).1
  · intro hio hs
    have hm : updateWhere task A = true := by
      unfold updateWhere; simp [hr, hAr, hs]
    refine ⟨updateTaskViaAPI_ok env task w A hio hA hm, ?_⟩
    rw [updateTaskViaAPI_tasks]
    simp only [hio, Bool.false_eq_true, if_false]
    have := List.mem_map_of_mem (updateRow env task) hA
    simpa [updateRow, hm] using this
  · have := hdel ▸ hBf
    exact (List.mem_filter.mp this).1
  · intro h0 h1
    have hm : deleteWhere task.RecordID title deviceID A = true := by
      unfold deleteWhere; simp [hr, hAr]
    obtain ⟨hnone, htasks⟩ :=
      deleteTaskViaAPI_ok env task.RecordID title deviceID w A h0 h1 hA hm
    refine ⟨hnone, ?_⟩
    intro x hx
    rw [htasks, List.mem_filter] at hx
    have := hx.2
    simpa [deleteWhere, hr] using this

/-- An instance of the lemma: `rowA` has record id `r1`, `rowB` has the title and
device id of the request `reqR1B`, which carries `r1`. -/
theorem recordID_request_acts_on_its_row_witness :
    rowB ∈ (updateTaskViaAPI (sampleEnv 2 "") reqR1B ⟨[rowA, rowB], []⟩).2.tasks ∧
    rowB ∈ (deleteTaskViaAPI (sampleEnv 2 "") reqR1B.RecordID "B" "dev1"
        ⟨[rowA, rowB], []⟩).2.tasks ∧
    (deleteTaskViaAPI (sampleEnv 2 "") reqR1B.RecordID "B" "dev1"
        ⟨[rowA, rowB], []⟩).1 = none :=
  have h := recordID_request_acts_on_its_row (sampleEnv 2 "") reqR1B "B" "dev1"
    ⟨[rowA, rowB], []⟩ rowA rowB (by decide) (by decide) (by decide) (by decide) (by decide)
  ⟨h.1.1, h.2.1, (h.2.2.2 rfl rfl).1⟩

/-- The `UPDATE` of `updateTaskViaAPI` names the scope in both branches: the rows
of every other scope are the same rows in the same order afterwards. -/
theorem updateTaskViaAPI_keeps_other_scopes (env : Env) (task : Task) (w : World) :
    (updateTaskViaAPI env task w).2.tasks.filter (fun x => x.UserID ≠ task.UserID)
      = w.tasks.filter (fun x => x.UserID ≠ task.UserID) := by
  rw [updateTaskViaAPI_tasks]
  split
  · rfl
  · apply filter_map_frame
    · intro x
      unfold updateRow
      split
      · rw [updateSet_UserID]
      · rfl
    · intro x hx
      have hne : x.UserID ≠ task.UserID := by simpa using hx
      have : updateWhere task x = false := by
        unfold updateWhere
        split <;> simp [hne]
      simp [updateRow, this]

/-- C4: the code at the failing input.  The store holds `rowA` (scope
`default_user`, record id `r1`), `rowA2` (scope `bob`, record id `r1`) and `rowB`
(scope `default_user`, record id `r2`, title `B`, device id `dev1`); the store
predicate holds.  The request carries the record id `r1` and the title and
device id of `rowB`.  The update acts on `rowA` only.  The delete reads `rowA`,
then runs a `DELETE` whose `WHERE` clause names the record id and no scope: it
removes `rowA` and the record `rowA2` of the other scope, and the one event
carries `rowA`.  In both `rowB` is still stored unchanged. -/
theorem recordID_delete_reaches_other_scope :
    StoreInv [rowA, rowA2, rowB] ∧
    updateTaskViaAPI (sampleEnv 2 "") reqR1B ⟨[rowA, rowA2, rowB], []⟩
      = (none,
         ⟨[rowAUpdated, rowA2, rowB], [⟨"task_updated", .task rowAUpdated⟩]⟩) ∧
    deleteTaskViaAPI (sampleEnv 2 "") "r1" "B" "dev1" ⟨[rowA, rowA2, rowB], []⟩
      = (none, ⟨[rowB], [⟨"task_deleted", .task rowA⟩]⟩) ∧
    handleDeleteTask (sampleEnv 2 "") (some deleteR1B) ⟨[rowA, rowA2, rowB], []⟩
      = ⟨[rowB], [⟨"task_deleted", .task rowA⟩]⟩ := by
  decide

/-- C5: an update (`updateTaskViaAPI`) or a delete (`deleteTaskViaAPI`) whose
resolved key, the `WHERE` clause of the request, matches no stored record
returns an error and leaves the world as it was: the same rows, and the same
messages on the broadcast channel, so no event is submitted. -/
theorem no_match_is_error (env : Env) (task : Task) (recordID title deviceID : String)
    (w : World) :
    ((∀ r ∈ w.tasks, updateWhere task r = false) →
      (updateTaskViaAPI env task w).1.isSome = true ∧ (updateTaskViaAPI env task w).2 = w) ∧
    ((∀ r ∈ w.tasks, deleteWhere recordID title deviceID r = false) →
      (deleteTaskViaAPI env recordID title deviceID w).1.isSome = true ∧
      (deleteTaskViaAPI env recordID title deviceID w).2 = w) := by
  constructor
  · intro h
    have hf := filter_of_no_match (updateWhere task) w.tasks h
    have hm := map_updateRow_of_no_match env task w.tasks h
    unfold updateTaskViaAPI
    by_cases h0 : env.storeErr 0 = true
    · simp [h0]
    · simp [h0, hf, hm]
  · intro h
    have hf := find_of_no_match (deleteWhere recordID title deviceID) w.tasks h
    unfold deleteTaskViaAPI
    by_cases h0 : env.storeErr 0 = true
    · simp [h0]
    · simp [h0, hf]

/-- Witness of C5: no stored record has the record id `r1` of the request. -/
theorem no_match_is_error_witness :
    (updateTaskViaAPI (sampleEnv 2 "") reqR1B ⟨[rowB, rowN], []⟩).1.isSome = true ∧
    (updateTaskViaAPI (sampleEnv 2 "") reqR1B ⟨[rowB, rowN], []⟩).2 = ⟨[rowB, rowN], []⟩ ∧
    (deleteTaskViaAPI (sampleEnv 2 "") "r1" "B" "dev1" ⟨[rowB, rowN], []⟩).1.isSome = true ∧
    (deleteTaskViaAPI (sampleEnv 2 "") "r1" "B" "dev1" ⟨[rowB, rowN], []⟩).2
      = ⟨[rowB, rowN], []⟩ :=
  have h := no_match_is_error (sampleEnv 2 "") reqR1B "r1" "B" "dev1" ⟨[rowB, rowN], []⟩
  ⟨(h.1 (by decide)).1, (h.1 (by decide)).2, (h.2 (by decide)).1, (h.2 (by decide)).2⟩

/-! ## The store predicate -/

/-- C6, the claim as stated fails: `rowA` alone satisfies the store predicate; a
create that carries the record id of `rowA` under another title is inserted by
`createTaskViaAPI` and by `createTaskHandler` (which searches by title and device
id only), and the store then holds two tasks of one scope with the same
non-empty record id. -/
theorem store_predicate_broken_by_create :
    StoreInv [rowA] ∧
    ¬ StoreInv (createTaskViaAPI (sampleEnv 2 "") reqR1B ⟨[rowA], []⟩).2.tasks ∧
    ¬ StoreInv (createTaskHandler (sampleEnv 2 "2") (some reqR1B) ⟨[rowA], []⟩).2.tasks := by
  decide

/-- C6, amended: the store predicate is preserved by `updateTaskViaAPI` and by
`deleteTaskViaAPI`, for every store that satisfies it, every request and every
environment. -/
theorem update_delete_preserve_store_predicate (env : Env) (task : Task)
    (recordID title deviceID : String) (w : World) (h : StoreInv w.tasks) :
    StoreInv (updateTaskViaAPI env task w).2.tasks ∧
    StoreInv (deleteTaskViaAPI env recordID title deviceID w).2.tasks :=
  ⟨StoreInv_updateTaskViaAPI env task w h,
   StoreInv_deleteTaskViaAPI env recordID title deviceID w h⟩

/-- Witness of C6: a store of three tasks, an update by record id and a delete by
natural key. -/
theorem update_delete_preserve_store_predicate_witness :
    StoreInv [rowA, rowB, rowN] ∧
    StoreInv (updateTaskViaAPI (sampleEnv 2 "") reqR1B ⟨[rowA, rowB, rowN], []⟩).2.tasks ∧
    StoreInv (deleteTaskViaAPI (sampleEnv 2 "") "" "N" "dev1" ⟨[rowA, rowB, rowN], []⟩).2.tasks :=
  have h0 : StoreInv [rowA, rowB, rowN] := by decide
  have h := update_delete_preserve_store_predicate (sampleEnv 2 "") reqR1B "" "N" "dev1"
    ⟨[rowA, rowB, rowN], []⟩ h0
  ⟨h0, h.1, h.2⟩

/-! ## Events -/

/-- C7: for every store state, every request and every environment, each of
`createTaskViaAPI`, `updateTaskViaAPI`, `deleteTaskViaAPI`, `createTaskHandler`,
`updateTaskHandler` and `deleteTaskHandler` obeys the event rule: a run that
ends in success has sent exactly one more message on the broadcast channel, and
a run that ends in an error has sent none.  For the three REST handlers the rule
is proved of the handler body for every answer of its store calls, `find`,
`update`, `create`, `get` and `delete` being any functions that leave the
broadcast channel alone, and so of the handlers over the store calls of the
program. -/
theorem one_event_per_successful_run (env : Env) (task : Task)
    (recordID title deviceID id : String) (body : Option Task) (w : World)
    (find : String → String → String → World → Except String (Option Task))
    (update : Task → World → Except String World)
    (create : Task → World → Except String (String × World))
    (get : String → World → Except String Task)
    (delete : String → World → Except String World)
    (hupdate : ∀ t w w1, update t w = .ok w1 → w1.broadcast = w.broadcast)
    (hcreate : ∀ t w i w1, create t w = .ok (i, w1) → w1.broadcast = w.broadcast)
    (hdelete : ∀ i w w1, delete i w = .ok w1 → w1.broadcast = w.broadcast) :
    EventRule (createTaskViaAPI env task w).1.isNone w (createTaskViaAPI env task w).2 ∧
    EventRule (updateTaskViaAPI env task w).1.isNone w (updateTaskViaAPI env task w).2 ∧
    EventRule (deleteTaskViaAPI env recordID title deviceID w).1.isNone w
      (deleteTaskViaAPI env recordID title deviceID w).2 ∧
    EventRule (createTaskHandlerWith find update create env body w).1.isOK w
      (createTaskHandlerWith find update create env body w).2 ∧
    EventRule (updateTaskHandlerWith update env id body w).1.isOK w
      (updateTaskHandlerWith update env id body w).2 ∧
    EventRule (deleteTaskHandlerWith get delete id w).1.isOK w
      (deleteTaskHandlerWith get delete id w).2 ∧
    EventRule (createTaskHandler env body w).1.isOK w (createTaskHandler env body w).2 ∧
    EventRule (updateTaskHandler env id body w).1.isOK w (updateTaskHandler env id body w).2 ∧
    EventRule (deleteTaskHandler env id w).1.isOK w (deleteTaskHandler env id w).2 :=
  ⟨createTaskViaAPI_events env task w, updateTaskViaAPI_events env task w,
   deleteTaskViaAPI_events env recordID title deviceID w,
   createTaskHandlerWith_events find update create hupdate hcreate env body w,
   updateTaskHandlerWith_events update hupdate env id body w,
   deleteTaskHandlerWith_events get delete hdelete id w,
   createTaskHandler_events env body w, updateTaskHandler_events env id body w,
   deleteTaskHandler_events env id w⟩

/-- Witness of C7: successful runs with their one event.  The body of
`updateTaskHandler` over a store call that answers the update; `createTaskHandler`
on an empty store; `deleteTaskHandler` for the id of `rowA`; `updateTaskViaAPI`
for the record id of `rowA`. -/
theorem one_event_per_successful_run_witness :
    (updateTaskHandlerWith acceptUpdate (sampleEnv 2 "2") "task_3" (some reqN) ⟨[rowA], []⟩).1.isOK
      = true ∧
    (∃ e, (updateTaskHandlerWith acceptUpdate (sampleEnv 2 "2") "task_3" (some reqN)
        ⟨[rowA], []⟩).2.broadcast = [] ++ [e]) ∧
    (createTaskHandler (sampleEnv 2 "2") (some reqN) ⟨[rowA], []⟩).1.isOK = true ∧
    (∃ e, (createTaskHandler (sampleEnv 2 "2") (some reqN) ⟨[rowA], []⟩).2.broadcast
      = [] ++ [e]) ∧
    (deleteTaskHandler (sampleEnv 2 "2") "task_1" ⟨[rowA], []⟩).1.isOK = true ∧
    (∃ e, (deleteTaskHandler (sampleEnv 2 "2") "task_1" ⟨[rowA], []⟩).2.broadcast
      = [] ++ [e]) ∧
    (updateTaskViaAPI (sampleEnv 2 "2") reqR1B ⟨[rowA], []⟩).1.isNone = true ∧
    (∃ e, (updateTaskViaAPI (sampleEnv 2 "2") reqR1B ⟨[rowA], []⟩).2.broadcast = [] ++ [e]) :=
  have h := one_event_per_successful_run (sampleEnv 2 "2") reqR1B "r1" "B" "dev1" "task_3"
    (some reqN) ⟨[rowA], []⟩ (findDuplicateTask false) acceptUpdate
    (createTask (sampleEnv 2 "2") false) (getTaskByID false) (deleteTask false)
    (fun _ _ _ h => by cases h; rfl) (fun _ _ _ _ h => createTask_broadcast h)
    (fun _ _ _ h => deleteTask_broadcast h)
  have hd := one_event_per_successful_run (sampleEnv 2 "2") reqR1B "r1" "B" "dev1" "task_1"
    (some reqN) ⟨[rowA], []⟩ (findDuplicateTask false) acceptUpdate
    (createTask (sampleEnv 2 "2") false) (getTaskByID false) (deleteTask false)
    (fun _ _ _ h => by cases h; rfl) (fun _ _ _ _ h => createTask_broadcast h)
    (fun _ _ _ h => deleteTask_broadcast h)
  ⟨by decide, h.2.2.2.2.1.1 (by decide), by decide, h.2.2.2.2.2.2.1.1 (by decide),
   by decide, hd.2.2.2.2.2.2.2.2.1 (by decide), by decide, h.2.1.1 (by decide)⟩

/-- C8: processing `Unregister(c)` twice in `Hub.run` gives the hub that
processing it once gives, the same membership and the same log of closed
connections, so the second processing changes nothing and closes nothing; and
`Unregister` of a connection that is not a member leaves the hub as it was. -/
theorem hub_unregister_idempotent (h : Hub) (writeOK writeOK2 : Conn → Bool) (c : Conn) :
    (h.run writeOK (.unregister c)).run writeOK2 (.unregister c)
      = h.run writeOK (.unregister c) ∧
    (c ∉ h.clients → h.run writeOK (.unregister c) = h) := by
  constructor
  · by_cases hc : c ∈ h.clients
    · simp [Hub.run, hc, Hub.delete, Hub.close]
    · simp [Hub.run, hc]
  · intro hc
    simp [Hub.run, hc]

/-- Witness of C8: connection 2 is unregistered twice, connection 7 is no member. -/
theorem hub_unregister_idempotent_witness :
    (Hub.run (Hub.run ⟨[1, 2, 3], [], []⟩ (fun _ => true) (.unregister 2)) (fun _ => true)
        (.unregister 2)) = ⟨[1, 3], [], [2]⟩ ∧
    Hub.run ⟨[1, 2, 3], [], []⟩ (fun _ => true) (.unregister 7) = ⟨[1, 2, 3], [], []⟩ :=
  have h := hub_unregister_idempotent ⟨[1, 2, 3], [], []⟩ (fun _ => true) (fun _ => true) 2
  have h7 := hub_unregister_idempotent ⟨[1, 2, 3], [], []⟩ (fun _ => true) (fun _ => true) 7
  ⟨h.1.trans (by decide), h7.2 (by decide)⟩

/-! ## Update: the two resolutions -/

/-- C9: the store holds exactly one record `R` with the scope, title and device
id of the request, at any place among the rows, and the request has an empty
record id.  When the `UPDATE` statement is executed (`db.Exec` returns no
error), `updateTaskViaAPI` succeeds; afterwards `R` has the description, due
date, completed flag, category and priority of the request and a refreshed
update time, its id, scope, title, device id, record id and creation time are
as before, every other row is unchanged, and one `task_updated` event is
submitted, with `R` as read back from the table (the task of the request when
that read fails). -/
theorem update_by_natural_key (env : Env) (task R : Task) (pre post : List Task)
    (bc : List WSMessage) (hrec : task.RecordID = "")
    (hR : R.UserID = task.UserID ∧ R.Title = task.Title ∧ R.DeviceID = task.DeviceID)
    (hone : ∀ x ∈ pre ++ post,
      ¬ (x.UserID = task.UserID ∧ x.Title = task.Title ∧ x.DeviceID = task.DeviceID))
    (hio : env.storeErr 0 = false) :
    updateTaskViaAPI env task ⟨pre ++ R :: post, bc⟩ =
      (none,
       ⟨pre ++ { R with Description := task.Description, DueDate := task.DueDate,
                        IsCompleted := task.IsCompleted, Category := task.Category,
                        Priority := task.Priority, UpdatedAt := env.currentTimestamp } :: post,
        bc ++ [⟨"task_updated", .task (if env.storeErr 1 then task else
          scanRow { R with Description := task.Description, DueDate := task.DueDate,
                           IsCompleted := task.IsCompleted, Category := task.Category,
                           Priority := task.Priority, UpdatedAt := env.currentTimestamp })⟩]⟩) := by
  have hno : ∀ x ∈ pre ++ post, updateWhere task x = false := by
    intro x hx
    have := hone x hx
    unfold updateWhere
    simp only [hrec, ne_eq, not_true_eq_false, if_false]
    by_cases h1 : x.Title = task.Title
    · by_cases h2 : x.DeviceID = task.DeviceID
      · by_cases h3 : x.UserID = task.UserID
        · exact absurd ⟨h3, h1, h2⟩ this
        · simp [h3]
      · simp [h2]
    · simp [h1]
  have hpre : ∀ x ∈ pre, updateWhere task x = false :=
    fun x hx => hno x (List.mem_append_left _ hx)
  have hpost : ∀ x ∈ post, updateWhere task x = false :=
    fun x hx => hno x (List.mem_append_right _ hx)
  have hRm : updateWhere task R = true := by
    unfold updateWhere; simp [hrec, hR.1, hR.2.1, hR.2.2]
  have hset : updateSet env task R =
      { R with Description := task.Description, DueDate := task.DueDate,
               IsCompleted := task.IsCompleted, Category := task.Category,
               Priority := task.Priority, UpdatedAt := env.currentTimestamp } := by
    unfold updateSet; simp [hrec]
  have hmap : (pre ++ R :: post).map (updateRow env task) =
      pre ++ updateSet env task R :: post := by
    rw [List.map_append, List.map_cons, map_updateRow_of_no_match env task pre hpre,
      map_updateRow_of_no_match env task post hpost]
    simp [updateRow, hRm]
  have hlen : ((pre ++ R :: post).filter (updateWhere task)).length = 1 := by
    rw [List.filter_append, List.filter_cons, filter_of_no_match _ pre hpre,
      filter_of_no_match _ post hpost]
    simp [hRm]
  have hfind : (pre ++ updateSet env task R :: post).find? (updateWhere task)
      = some (updateSet env task R) := by
    rw [List.find?_append, find_of_no_match _ pre hpre]
    simp [List.find?_cons, updateWhere_updateSet env task R hRm]
  unfold updateTaskViaAPI
  simp only [hio, Bool.false_eq_true, if_false, hlen, hmap, hfind, one_ne_zero]
  rw [hset]
  cases env.storeErr 1 <;> simp [broadcastTaskChange]

/-- Witness of C9: `rowN` is the one record with the natural key of `reqN`. -/
theorem update_by_natural_key_witness :
    (updateTaskViaAPI (sampleEnv 2 "") reqN ⟨[rowA] ++ rowN :: [rowB], []⟩).1 = none ∧
    (updateTaskViaAPI (sampleEnv 2 "") reqN ⟨[rowA] ++ rowN :: [rowB], []⟩).2.tasks
      = [rowA, { rowN with Description := "new", IsCompleted := true, Priority := 2,
                           UpdatedAt := "2024-01-01 10:00:00" }, rowB] :=
  have h := update_by_natural_key (sampleEnv 2 "") reqN rowN [rowA] [rowB] [] rfl
    (by decide) (by decide) rfl
  ⟨congrArg Prod.fst h, (congrArg (fun p => p.2.tasks) h).trans (by decide)⟩

/-- C10, the claim as stated fails: an update that carries the record id of
`rowA` and the title `B` succeeds and the stored title of `rowA` becomes `B`. -/
theorem recordID_update_overwrites_title :
    (updateTaskViaAPI (sampleEnv 2 "") reqR1B ⟨[rowA], []⟩).1 = none ∧
    (updateTaskViaAPI (sampleEnv 2 "") reqR1B ⟨[rowA], []⟩).2.tasks.map (fun r => r.Title)
      = ["B"] ∧
    rowA.Title = "A" := by
  decide

/-- C10, amended: the store holds a record `R` whose record id, non-empty, and
scope are those of the request.  When the `UPDATE` statement is executed,
`updateTaskViaAPI` succeeds and overwrites the title, description, due date,
completed flag, category, priority and device id of `R` with those of the
request and refreshes its update time; the id, scope, record id and creation
time of `R` are left as stored.  The other rows go through the same `UPDATE`. -/
theorem update_by_recordID_overwrites (env : Env) (task R : Task) (pre post : List Task)
    (bc : List WSMessage) (hr : task.RecordID ≠ "")
    (hR : R.RecordID = task.RecordID ∧ R.UserID = task.UserID)
    (hio : env.storeErr 0 = false) :
    (updateTaskViaAPI env task ⟨pre ++ R :: post, bc⟩).1 = none ∧
    (updateTaskViaAPI env task ⟨pre ++ R :: post, bc⟩).2.tasks =
      pre.map (updateRow env task) ++
        { R with Title := task.Title, Description := task.Description, DueDate := task.DueDate,
                 IsCompleted := task.IsCompleted, Category := task.Category,
                 Priority := task.Priority, DeviceID := task.DeviceID,
                 UpdatedAt := env.currentTimestamp } :: post.map (updateRow env task) := by
  have hRm : updateWhere task R = true := by
    unfold updateWhere; simp [hr, hR.1, hR.2]
  refine ⟨updateTaskViaAPI_ok env task _ R hio (by simp) hRm, ?_⟩
  rw [updateTaskViaAPI_tasks]
  simp only [hio, Bool.false_eq_true, if_false, List.map_append, List.map_cons]
  congr 2
  simp [updateRow, hRm, updateSet, hr]

/-- Witness of C10: `rowA` lies between `rowN` and `rowB` and has the record id
of `reqR1B`. -/
theorem update_by_recordID_overwrites_witness :
    (updateTaskViaAPI (sampleEnv 2 "") reqR1B ⟨[rowN] ++ rowA :: [rowB], []⟩).1 = none ∧
    (updateTaskViaAPI (sampleEnv 2 "") reqR1B ⟨[rowN] ++ rowA :: [rowB], []⟩).2.tasks
      = [rowN, { rowA with Title := "B", Description := "new", IsCompleted := true,
                           Priority := 2, UpdatedAt := "2024-01-01 10:00:00" }, rowB] :=
  have h := update_by_recordID_overwrites (sampleEnv 2 "") reqR1B rowA [rowN] [rowB] []
    (by decide) (by decide) rfl
  ⟨h.1, h.2.trans (by decide)⟩


/-! ## Lemmas on runs of the hub -/

theorem Hub.run_broadcast (h : Hub) (hM : h.clients.Nodup) (e : WSMessage)
    (writeOK : Conn → Bool) :
    (h.run writeOK (.broadcast e)).clients = h.clients.filter (fun c => writeOK c) ∧
    (h.run writeOK (.broadcast e)).closed
      = h.closed ++ h.clients.filter (fun c => !writeOK c) := by
  obtain ⟨_, h2, h3⟩ := Hub.broadcastLoop_spec e writeOK h.clients h hM (fun _ hc => hc)
  refine ⟨?_, h3⟩
  show (Hub.broadcastLoop e writeOK h.clients h).clients = _
  rw [h2]
  apply List.filter_congr
  intro c hc
  simp [hc]

theorem Hub.run_invariant (h : Hub) (writeOK : Conn → Bool) (req : HubRequest)
    (hM : h.clients.Nodup) (hC : h.closed.Nodup) (hD : ∀ c ∈ h.closed, c ∉ h.clients)
    (hreg : ∀ c, req = .register c → c ∉ h.closed) :
    (h.run writeOK req).clients.Nodup ∧ (h.run writeOK req).closed.Nodup ∧
    (∀ c ∈ (h.run writeOK req).closed, c ∉ (h.run writeOK req).clients) ∧
    (∀ c, c ∈ h.clients ∨ c ∈ h.closed →
      c ∈ (h.run writeOK req).clients ∨ c ∈ (h.run writeOK req).closed) ∧
    (∀ c, req = .register c → c ∈ (h.run writeOK req).clients) := by
  cases req with
  | register client =>
    have hnc : client ∉ h.closed := hreg client rfl
    by_cases hin : client ∈ h.clients
    · simp only [Hub.run, hin, if_true]
      refine ⟨hM, hC, hD, fun c hc => hc, ?_⟩
      intro c hc; cases hc; exact hin
    · simp only [Hub.run, hin, if_false]
      refine ⟨?_, hC, ?_, ?_, ?_⟩
      · rw [List.nodup_append]
        refine ⟨hM, List.nodup_singleton _, ?_⟩
        intro a ha hb
        rw [List.mem_singleton] at hb
        exact hin (hb ▸ ha)
      · intro c hc hmem
        rw [List.mem_append, List.mem_singleton] at hmem
        rcases hmem with hm | hm
        · exact hD c hc hm
        · exact hnc (hm ▸ hc)
      · intro c hc
        rcases hc with hc | hc
        · exact Or.inl (List.mem_append_left _ hc)
        · exact Or.inr hc
      · intro c hc; cases hc; simp
  | unregister client =>
    by_cases hin : client ∈ h.clients
    · simp only [Hub.run, hin, if_true, Hub.delete, Hub.close]
      refine ⟨hM.filter _, ?_, ?_, ?_, ?_⟩
      · rw [List.nodup_append]
        refine ⟨hC, List.nodup_singleton _, ?_⟩
        intro a ha hb
        rw [List.mem_singleton] at hb
        exact hD a ha (hb ▸ hin)
      · intro c hc hmem
        rw [List.mem_filter] at hmem
        rw [List.mem_append, List.mem_singleton] at hc
        rcases hc with hc | hc
        · exact hD c hc hmem.1
        · simp [hc] at hmem
      · intro c hc
        by_cases hcc : c = client
        · right; simp [hcc]
        · rcases hc with hc | hc
          · left; simp [List.mem_filter, hc, hcc]
          · right; exact List.mem_append_left _ hc
      · intro c hc; cases hc
    · simp only [Hub.run, hin, if_false]
      exact ⟨hM, hC, hD, fun c hc => hc, fun c hc => by cases hc⟩
  | broadcast message =>
    obtain ⟨h1, h2⟩ := Hub.run_broadcast h hM message writeOK
    rw [h1, h2]
    refine ⟨hM.filter _, ?_, ?_, ?_, ?_⟩
    · rw [List.nodup_append]
      refine ⟨hC, hM.filter _, ?_⟩
      intro a ha hb
      exact hD a ha (List.mem_filter.mp hb).1
    · intro c hc hmem
      rw [List.mem_filter] at hmem
      rw [List.mem_append, List.mem_filter] at hc
      rcases hc with hc | hc
      · exact hD c hc hmem.1
      · have h1 := hmem.2
        have h2 := hc.2
        simp [h1] at h2
    · intro c hc
      rcases hc with hc | hc
      · cases hw : writeOK c with
        | true => left; simp [List.mem_filter, hc, hw]
        | false => right; simp [List.mem_filter, hc, hw]
      · right; exact List.mem_append_left _ hc
    · intro c hc; cases hc

theorem Hub.runAll_invariant :
    ∀ (steps : List (HubRequest × (Conn → Bool))) (h : Hub), h.clients.Nodup → h.closed.Nodup →
      (∀ c ∈ h.closed, c ∉ h.clients) → noReregister h steps = true →
      (Hub.runAll h steps).clients.Nodup ∧ (Hub.runAll h steps).closed.Nodup ∧
      (∀ c ∈ (Hub.runAll h steps).closed, c ∉ (Hub.runAll h steps).clients) ∧
      (∀ c, c ∈ h.clients ∨ c ∈ h.closed ∨ c ∈ registered steps →
        c ∈ (Hub.runAll h steps).clients ∨ c ∈ (Hub.runAll h steps).closed)
  | [], h, hM, hC, hD, _ => by
    refine ⟨hM, hC, hD, ?_⟩
    intro c hc
    rcases hc with hc | hc | hc
    · exact Or.inl hc
    · exact Or.inr hc
    · simp [registered] at hc
  | step :: rest, h, hM, hC, hD, hno => by
    simp only [noReregister, Bool.and_eq_true] at hno
    have hreg : ∀ c, step.1 = .register c → c ∉ h.closed := by
      intro c hc
      have := hno.1
      rw [hc] at this
      simpa using this
    obtain ⟨i1, i2, i3, i4, i5⟩ := Hub.run_invariant h step.2 step.1 hM hC hD hreg
    obtain ⟨j1, j2, j3, j4⟩ := Hub.runAll_invariant rest (h.run step.2 step.1) i1 i2 i3 hno.2
    refine ⟨j1, j2, j3, ?_⟩
    intro c hc
    apply j4
    rcases hc with hc | hc | hc
    · rcases i4 c (Or.inl hc) with h1 | h1
      · exact Or.inl h1
      · exact Or.inr (Or.inl h1)
    · rcases i4 c (Or.inr hc) with h1 | h1
      · exact Or.inl h1
      · exact Or.inr (Or.inl h1)
    · unfold registered at hc
      split at hc
      · rename_i client hstep
        rcases List.mem_cons.mp hc with hc | hc
        · exact Or.inl (i5 c (by rw [hstep, hc]))
        · exact Or.inr (Or.inr hc)
      · exact Or.inr (Or.inr hc)

theorem noReregister_take :
    ∀ (steps : List (HubRequest × (Conn → Bool))) (h : Hub) (n : Nat),
      noReregister h steps = true → noReregister h (steps.take n) = true
  | [], _, n, _ => by simp [noReregister]
  | _ :: _, _, 0, _ => by simp [noReregister]
  | step :: rest, h, n + 1, hno => by
    simp only [noReregister, Bool.and_eq_true, List.take_succ_cons] at hno ⊢
    exact ⟨hno.1, noReregister_take rest _ n hno.2⟩

/-! ## Lemmas on delete and on the request paths -/

theorem deleteTaskViaAPI_unique_match (env : Env) (recordID title deviceID : String)
    (R : Task) (pre post : List Task) (bc : List WSMessage)
    (hR : deleteWhere recordID title deviceID R = true)
    (hone : ∀ x ∈ pre ++ post, deleteWhere recordID title deviceID x = false)
    (h0 : env.storeErr 0 = false) (h1 : env.storeErr 1 = false) :
    deleteTaskViaAPI env recordID title deviceID ⟨pre ++ R :: post, bc⟩ =
      (none, ⟨pre ++ post, bc ++ [⟨"task_deleted", .task (scanRow R)⟩]⟩) := by
  have hpre : ∀ x ∈ pre, deleteWhere recordID title deviceID x = false :=
    fun x hx => hone x (List.mem_append_left _ hx)
  have hpost : ∀ x ∈ post, deleteWhere recordID title deviceID x = false :=
    fun x hx => hone x (List.mem_append_right _ hx)
  have hfind : (pre ++ R :: post).find? (deleteWhere recordID title deviceID) = some R := by
    rw [List.find?_append, find_of_no_match _ pre hpre]
    simp [List.find?_cons, hR]
  have hlen : ((pre ++ R :: post).filter (deleteWhere recordID title deviceID)).length = 1 := by
    rw [List.filter_append, List.filter_cons, filter_of_no_match _ pre hpre,
      filter_of_no_match _ post hpost]
    simp [hR]
  have hkeep : ∀ l : List Task, (∀ x ∈ l, deleteWhere recordID title deviceID x = false) →
      l.filter (fun r => !deleteWhere recordID title deviceID r) = l := by
    intro l hl
    rw [List.filter_eq_self]
    intro x hx
    simp [hl x hx]
  have hfilter : (pre ++ R :: post).filter (fun r => !deleteWhere recordID title deviceID r)
      = pre ++ post := by
    rw [List.filter_append, List.filter_cons, hkeep pre hpre, hkeep post hpost]
    simp [hR]
  unfold deleteTaskViaAPI
  simp only [h0, h1, Bool.false_eq_true, if_false, hfind, hlen, hfilter, one_ne_zero]
  rfl

theorem urlKey_append (key : String) : urlKey (sqliteAPIURL ++ "/api/tasks/" ++ key) = key := by
  unfold urlKey
  have : (sqliteAPIURL ++ "/api/tasks/" ++ key).data
      = (sqliteAPIURL ++ "/api/tasks/").data ++ key.data := String.data_append _ _
  rw [this]
  show (⟨List.drop (sqliteAPIURL ++ "/api/tasks/").data.length
    ((sqliteAPIURL ++ "/api/tasks/").data ++ key.data)⟩ : String) = key
  rw [List.drop_left]

theorem fmtD_str_ne (id : String) : "%!d(string=" ++ id ++ ")" ≠ id := by
  intro h
  have := congrArg String.length h
  simp only [String.length_append] at this
  have h11 : "%!d(string=".length = 11 := by decide
  have h1 : ")".length = 1 := by decide
  omega

/-! ## Delete -/

/-- C11: the code at the failing input.  The store holds `rowAlice` and `rowBob`,
two tasks of two scopes with the same title and device id and no record id (the
store predicate holds).  A `delete_task` message of a client of the scope
`alice` with that title and device id succeeds: `deleteTaskViaAPI` reads the
first matching row, then runs a `DELETE` whose `WHERE` clause names no scope, so
both records are removed, that of the scope `bob` too, and the one
`task_deleted` event carries `rowAlice` only. -/
theorem deleteTaskViaAPI_removes_every_match :
    StoreInv [rowAlice, rowBob] ∧
    deleteTaskViaAPI (sampleEnv 2 "") deleteMilk.record_id deleteMilk.title deleteMilk.device_id
        ⟨[rowAlice, rowBob], []⟩
      = (none, ⟨[], [⟨"task_deleted", .task rowAlice⟩]⟩) ∧
    handleDeleteTask (sampleEnv 2 "") (some deleteMilk) ⟨[rowAlice, rowBob], []⟩
      = ⟨[], [⟨"task_deleted", .task rowAlice⟩]⟩ := by
  decide

/-! ## Runs of the hub: destruction of a connection -/

/-- C12: the hub starts empty and processes a finite sequence of register,
unregister and broadcast requests, each with arbitrary write outcomes, in which
no connection is registered again after its removal.  After every prefix of the
sequence, no connection has been closed more than once, no closed connection is
a member, and every connection that was registered and is no longer a member
has been closed exactly once. -/
theorem hub_destroys_each_connection_once (steps : List (HubRequest × (Conn → Bool)))
    (hno : noReregister Hub.empty steps = true) (n : Nat) :
    (∀ c, (Hub.runAll Hub.empty (steps.take n)).closed.count c ≤ 1) ∧
    (∀ c ∈ (Hub.runAll Hub.empty (steps.take n)).closed,
      c ∉ (Hub.runAll Hub.empty (steps.take n)).clients) ∧
    (∀ c ∈ registered (steps.take n), c ∉ (Hub.runAll Hub.empty (steps.take n)).clients →
      (Hub.runAll Hub.empty (steps.take n)).closed.count c = 1) := by
  obtain ⟨_, j2, j3, j4⟩ := Hub.runAll_invariant (steps.take n) Hub.empty
    (by simp [Hub.empty]) (by simp [Hub.empty]) (by simp [Hub.empty])
    (noReregister_take steps Hub.empty n hno)
  refine ⟨fun c => List.nodup_iff_count_le_one.mp j2 c, j3, ?_⟩
  intro c hc hnot
  rcases j4 c (Or.inr (Or.inr hc)) with h1 | h1
  · exact absurd h1 hnot
  · exact List.count_eq_one_of_mem j2 h1

/-- Witness of C12: in `sampleRun` connection 2 fails a broadcast write and is then
unregistered, connection 1 is unregistered, connection 3 fails a later write. -/
theorem hub_destroys_each_connection_once_witness :
    (Hub.runAll Hub.empty sampleRun).closed = [2, 1, 3] ∧
    (∀ c, (Hub.runAll Hub.empty (sampleRun.take 7)).closed.count c ≤ 1) :=
  ⟨by decide, (hub_destroys_each_connection_once sampleRun (by decide) 7).1⟩


/-! ## The REST update path -/

/-- C13: the code against the claim, for every id `i` of the path, every decoded
body and every environment.  `updateTaskHandler` sets `task.ID` to the string
`i`, and `updateTask` formats it with `%d`: the key of the path it builds is the
bad-verb text around `i`, never `i`, whereas `getTaskByID` and `deleteTask`
build the key `i` with `%s`.  The URL of `updateTask` does not parse, so the
handler ends in an error and leaves store and channel as they were. -/
theorem updateTask_key_is_not_the_id (env : Env) (i : String) (task : Task) (w : World) :
    urlKey (updateTaskURL { task with ID := .str i, UpdatedAt := env.now })
      = "%!d(string=" ++ i ++ ")" ∧
    urlKey (taskURL i) = i ∧
    urlKey (updateTaskURL { task with ID := .str i, UpdatedAt := env.now }) ≠ urlKey (taskURL i) ∧
    (updateTaskHandler env i (some task) w).1.isOK = false ∧
    (updateTaskHandler env i (some task) w).2 = w := by
  have hk : urlKey (updateTaskURL { task with ID := .str i, UpdatedAt := env.now })
      = "%!d(string=" ++ i ++ ")" := by
    unfold updateTaskURL
    exact urlKey_append _
  have hi : urlKey (taskURL i) = i := by
    unfold taskURL
    exact urlKey_append _
  refine ⟨hk, hi, ?_, ?_⟩
  · rw [hk, hi]
    exact fmtD_str_ne i
  · unfold updateTaskHandler updateTaskHandlerWith
    by_cases he : i = ""
    · simp [he, Response.isOK]
    · simp only [he, if_false]
      rw [updateTask_str_fails (env.storeErr 0) _ i w rfl]
      simp [Response.isOK]

end WebsocketServer
